import Mathlib

/-!
Verification development for the latanda auth-middleware library.

Shallow embedding of the three source modules:
  src/src/rbac.js        (role table and authorization helpers)
  src/src/jwt.js         (token issue / verify / decode / refresh)
  src/src/middleware.js  (Express gate stages)

Modelling conventions:
  JavaScript objects with optional fields become structures with Option
  fields (none = the field is absent / undefined).  JavaScript truthiness
  tests on claims become explicit checks: a string claim is truthy when it
  is present and non-empty, a numeric claim when present and non-zero.
  Unix timestamps are Nat, and each operation takes the current time as an
  explicit argument (the source reads the clock once per call in the
  single-instant semantics used here).
  Tokens are symbolic: the HMAC signature of the external jsonwebtoken
  library is modelled by recording the signing key inside the token, with
  the standard idealization that a signature verifies under exactly the
  key that produced it.
-/

namespace LatandaAuth

/-! ## Role table (src/src/rbac.js lines 10-59) -/

/-- One entry of the static role table: name, numeric level, permission
strings. -/
structure Role where
  name : String
  level : Nat
  permissions : List String
deriving DecidableEq, Repr

/-- The ROLES object of rbac.js: a string-keyed lookup over the four
predefined entries, none for any other key. -/
def ROLES : String → Option Role
  | "ADMIN" => some
      { name := "ADMIN"
        level := 100
        permissions := ["full_access", "user_management", "system_config",
          "approve_deposits", "manage_groups", "view_analytics",
          "manage_roles", "delete_users", "system_settings"] }
  | "MIT" => some
      { name := "MIT"
        level := 50
        permissions := ["create_groups", "manage_own_groups", "approve_members",
          "view_group_analytics", "edit_group_settings"] }
  | "IT" => some
      { name := "IT"
        level := 75
        permissions := ["view_system_logs", "debug_access", "api_access",
          "view_analytics", "technical_support"] }
  | "USER" => some
      { name := "USER"
        level := 10
        permissions := ["view_own_profile", "edit_own_profile", "join_groups",
          "make_payments", "view_own_transactions"] }
  | _ => none

/-- hasPermission (rbac.js lines 67-75): unknown role gives false, ADMIN is
special-cased to true, otherwise membership in the listed permission set. -/
def hasPermission (userRole requiredPermission : String) : Bool :=
  match ROLES userRole with
  | none => false
  | some role =>
    if userRole = "ADMIN" then true
    else role.permissions.contains requiredPermission

/-- hasRoleLevel (rbac.js lines 103-110): both roles must exist, then the
integer levels are compared. -/
def hasRoleLevel (userRole requiredRole : String) : Bool :=
  match ROLES userRole, ROLES requiredRole with
  | some u, some r => u.level ≥ r.level
  | _, _ => false

/-- isValidRole (rbac.js lines 127-129): membership among the keys of the
ROLES object, in literal order ADMIN, MIT, IT, USER. -/
def isValidRole (role : String) : Bool :=
  ["ADMIN", "MIT", "IT", "USER"].contains role

/-- A group record; the only field read by the source is creator_id
(rbac.js line 159). -/
structure Group where
  creator_id : String
deriving DecidableEq, Repr

/-- The action list of the MIT branch of canPerformGroupAction
(rbac.js line 160). -/
def mitActions : List String := ["edit", "delete", "approve_members", "manage_settings"]

/-- canPerformGroupAction (rbac.js lines 154-168): ADMIN first, then the
MIT-creator branch returns membership in mitActions, then the view case,
otherwise false. -/
def canPerformGroupAction (userId : String) (group : Group)
    (userRole : String) (action : String) : Bool :=
  if userRole = "ADMIN" then true
  else if userRole = "MIT" ∧ group.creator_id = userId then
    mitActions.contains action
  else if action = "view" then true
  else false

/-! ## Token codec (src/src/jwt.js)

The source delegates signing and verification to the external jsonwebtoken
library (jwt.sign / jwt.verify / jwt.decode), called with an issuer and an
audience option.  That library is embedded here following its documented
behaviour: signature check first, then (when the exp claim is present)
expiry, then the audience option, then the issuer option, where an option
equal to the empty string is falsy and therefore not enforced.  Expiry and
claim mismatches surface as thrown errors whose name field the source
inspects: TokenExpiredError for expiry, JsonWebTokenError for everything
else (bad signature, audience mismatch, issuer mismatch, missing key). -/

/-- A decoded token payload.  none means the field is absent from the
JSON object (undefined in JavaScript). -/
structure Payload where
  user_id : Option String := none
  email : Option String := none
  role : Option String := none
  permissions : Option (List String) := none
  iss : Option String := none
  aud : Option String := none
  iat : Option Nat := none
  exp : Option Nat := none
deriving DecidableEq, Repr

/-- A token string, symbolically.  empty is a falsy token value,
malformed a non-empty string without exactly three dot-separated
segments, unsigned a structurally well-formed token whose signature
verifies under no key, and signed a token produced by HMAC-SHA256 under
the recorded key (idealized as verifying under exactly that key). -/
inductive Token where
  | empty
  | malformed
  | unsigned (p : Payload)
  | signed (p : Payload) (key : String)
deriving DecidableEq, Repr

/-- The options object accepted by generateToken / validateToken /
refreshToken.  expiresIn is a duration in seconds (the source default 8h
is 28800 seconds). -/
structure JwtOptions where
  expiresIn : Option Nat := none
  issuer : Option String := none
  audience : Option String := none
deriving DecidableEq, Repr

/-- JavaScript truthiness of an optional string: present and non-empty. -/
def strTruthy : Option String → Bool
  | some s => s ≠ ""
  | none => false

/-- JavaScript truthiness of an optional number: present and non-zero. -/
def natTruthy : Option Nat → Bool
  | some n => n ≠ 0
  | none => false

/-- JavaScript a or-else b on optional strings: b when a is falsy. -/
def jsOrStr (a b : Option String) : Option String :=
  if strTruthy a then a else b

/-- The user object accepted by generateToken (jwt.js lines 16-39 read
id, user_id, email, role, permissions). -/
structure User where
  id : Option String := none
  user_id : Option String := none
  email : Option String := none
  role : Option String := none
  permissions : Option (List String) := none
deriving DecidableEq, Repr

/-- generateToken (jwt.js lines 16-39): builds the payload with
user_id = user.id or-else user.user_id, role defaulted to USER when
falsy, permissions defaulted to the empty list, and signs it under the
secret; jwt.sign embeds iss, aud, iat = now and exp = now + expiresIn. -/
def generateToken (user : User) (secret : String) (options : JwtOptions)
    (now : Nat) : Token :=
  let expiresIn := options.expiresIn.getD 28800
  let issuer := options.issuer.getD "latanda.online"
  let audience := options.audience.getD "latanda-web-app"
  Token.signed
    { user_id := jsOrStr user.id user.user_id
      email := user.email
      role := if strTruthy user.role then user.role else some "USER"
      permissions := some (user.permissions.getD [])
      iss := some issuer
      aud := some audience
      iat := some now
      exp := some (now + expiresIn) } secret

/-- The errors thrown by the embedded jwt.verify, distinguished the way
the source distinguishes them: by the name field of the error object. -/
inductive JwtError where
  | tokenExpired
  | jsonWebToken (message : String)
deriving DecidableEq, Repr

/-- The audience and issuer checks jwt.verify performs after signature
and expiry, in this order, each only when the expected value is truthy. -/
def jwtVerifyClaims (p : Payload) (issuer audience : String) :
    Except JwtError Payload :=
  if audience ≠ "" ∧ p.aud ≠ some audience then
    Except.error (JwtError.jsonWebToken "jwt audience invalid")
  else if issuer ≠ "" ∧ p.iss ≠ some issuer then
    Except.error (JwtError.jsonWebToken "jwt issuer invalid")
  else Except.ok p

/-- jwt.verify of the jsonwebtoken library, as called at jwt.js lines
66-70: key presence, signature, expiry (when an exp claim is present),
audience, issuer. -/
def jwtVerify (token : Token) (key : String) (issuer audience : String)
    (now : Nat) : Except JwtError Payload :=
  match token with
  | Token.empty => Except.error (JwtError.jsonWebToken "jwt must be provided")
  | Token.malformed => Except.error (JwtError.jsonWebToken "jwt malformed")
  | Token.unsigned _ => Except.error (JwtError.jsonWebToken "invalid signature")
  | Token.signed p k =>
    if key = "" then
      Except.error (JwtError.jsonWebToken "secret or public key must be provided")
    else if k ≠ key then
      Except.error (JwtError.jsonWebToken "invalid signature")
    else
      match p.exp with
      | some e =>
        if e ≤ now then Except.error JwtError.tokenExpired
        else jwtVerifyClaims p issuer audience
      | none => jwtVerifyClaims p issuer audience

/-- The result object of validateToken.  Absent fields are none; the
expired flag is absent-as-false, matching how the callers read it. -/
structure VResult where
  valid : Bool
  error : Option String := none
  expired : Bool := false
  decoded : Option Payload := none
  user_id : Option String := none
  email : Option String := none
  role : Option String := none
  permissions : Option (List String) := none
deriving DecidableEq, Repr

/-- The claim-presence loop of validateToken (jwt.js lines 72-78): the
first claim of user_id, email, role, iss, aud, exp, iat whose value is
JavaScript-falsy (absent, empty string, or zero). -/
def firstMissingClaim (p : Payload) : Option String :=
  if ¬ strTruthy p.user_id then some "user_id"
  else if ¬ strTruthy p.email then some "email"
  else if ¬ strTruthy p.role then some "role"
  else if ¬ strTruthy p.iss then some "iss"
  else if ¬ strTruthy p.aud then some "aud"
  else if ¬ natTruthy p.exp then some "exp"
  else if ¬ natTruthy p.iat then some "iat"
  else none

/-- validateToken (jwt.js lines 48-112): format checks, jwt.verify with
the thrown errors mapped in the catch block (TokenExpiredError to Token
expired with the expired flag, JsonWebTokenError to Invalid token
signature), then the claim-presence loop, the expiry re-check, and the
issuer and audience comparisons. -/
def validateToken (token : Token) (secret : String) (options : JwtOptions)
    (now : Nat) : VResult :=
  let issuer := options.issuer.getD "latanda.online"
  let audience := options.audience.getD "latanda-web-app"
  match token with
  | Token.empty => { valid := false, error := some "Invalid token format" }
  | Token.malformed => { valid := false, error := some "Malformed token structure" }
  | _ =>
    match jwtVerify token secret issuer audience now with
    | Except.error JwtError.tokenExpired =>
      { valid := false, error := some "Token expired", expired := true }
    | Except.error (JwtError.jsonWebToken _) =>
      { valid := false, error := some "Invalid token signature" }
    | Except.ok decoded =>
      match firstMissingClaim decoded with
      | some c => { valid := false, error := some ("Missing required claim: " ++ c) }
      | none =>
        if decoded.exp.getD 0 ≤ now then
          { valid := false, error := some "Token expired" }
        else if decoded.iss ≠ some issuer then
          { valid := false, error := some "Invalid issuer" }
        else if decoded.aud ≠ some audience then
          { valid := false, error := some "Invalid audience" }
        else
          { valid := true
            decoded := some decoded
            user_id := decoded.user_id
            email := decoded.email
            role := decoded.role
            permissions := some (decoded.permissions.getD []) }

/-- decodeToken (jwt.js lines 119-125): unverified decode, none on any
structural failure. -/
def decodeToken : Token → Option Payload
  | Token.signed p _ => some p
  | Token.unsigned p => some p
  | _ => none

/-- The result object of refreshToken (jwt.js lines 153-178). -/
inductive RefreshResult where
  | failure (error : String)
  | success (token : Token) (user_id : Option String) (expires_in : Nat)
deriving DecidableEq, Repr

/-- refreshToken (jwt.js lines 153-178): refuses when the validation is
neither valid nor flagged expired; otherwise rebuilds the user object
from the validated payload (or, on the expired path, from the unverified
decode) and issues a new token under the same secret and options.  The
source reads decodeToken(oldToken).payload, which on this branch always
exists; the unreachable null case is given the empty payload here. -/
def refreshToken (oldToken : Token) (secret : String) (options : JwtOptions)
    (now : Nat) : RefreshResult :=
  let validation := validateToken oldToken secret options now
  if ¬ validation.valid ∧ ¬ validation.expired then
    RefreshResult.failure "Invalid token cannot be refreshed"
  else
    let decoded := (validation.decoded.orElse (fun _ => decodeToken oldToken)).getD {}
    let user : User :=
      { id := decoded.user_id
        email := decoded.email
        role := decoded.role
        permissions := decoded.permissions }
    RefreshResult.success (generateToken user secret options now) decoded.user_id
      (if natTruthy options.expiresIn then options.expiresIn.getD 0 else 28800)

/-! ## Claims C1 and C2 -/

/-- Roles listed in the role table are non-empty strings. -/
theorem isValidRole_ne_empty {r : String} (h : isValidRole r = true) :
    r ≠ "" := by
  intro hr
  subst hr
  exact absurd h (by decide)

/-- Claim C1 (round-trip law): for every identity with non-empty
subject_id and email, every role of the role table, every permission
list, and every non-empty signing key, validating a token generated
under that key (at any clock value of at least one second past the
epoch, so the iat claim is truthy) succeeds and returns the same
subject_id, email, role and permissions. -/
theorem C1_verify_issue_roundtrip (id email role : String)
    (perms : List String) (key : String) (now : Nat)
    (hid : id ≠ "") (hemail : email ≠ "") (hrole : isValidRole role = true)
    (hkey : key ≠ "") (hnow : 1 ≤ now) :
    let v := validateToken
      (generateToken
        { id := some id
          email := some email
          role := some role
          permissions := some perms } key {} now) key {} now
    v.valid = true ∧ v.user_id = some id ∧ v.email = some email ∧
      v.role = some role ∧ v.permissions = some perms := by
  have hrne : role ≠ "" := isValidRole_ne_empty hrole
  have hnz : now ≠ 0 := by omega
  simp only [validateToken, generateToken, jwtVerify, jwtVerifyClaims,
    firstMissingClaim, jsOrStr, strTruthy, natTruthy, Option.getD]
  simp [hid, hemail, hrne, hkey, hnz]

/-- Closed instance of C1 at a concrete identity, key and clock. -/
theorem C1_verify_issue_roundtrip_witness :
    let v := validateToken
      (generateToken
        { id := some "u1"
          email := some "a@b.com"
          role := some "USER"
          permissions := some ["join_groups"] } "k1" {} 1000)
      "k1" {} 1000
    v.valid = true ∧ v.user_id = some "u1" ∧ v.email = some "a@b.com" ∧
      v.role = some "USER" ∧ v.permissions = some ["join_groups"] :=
  C1_verify_issue_roundtrip "u1" "a@b.com" "USER" ["join_groups"] "k1" 1000
    (by decide) (by decide) (by decide) (by decide) (by omega)

/-- Claim C2: a token issued under one key, validated under any other
key, yields the invalid result with the signature reason, whatever the
identity, the options and the clocks on either side. -/
theorem C2_verify_wrong_key (user : User) (key key2 : String)
    (options : JwtOptions) (now now2 : Nat) (h : key2 ≠ key) :
    validateToken (generateToken user key options now) key2 options now2
      = { valid := false, error := some "Invalid token signature" } := by
  by_cases hk : key2 = ""
  · subst hk
    simp [validateToken, generateToken, jwtVerify]
  · have hne : ¬ (key = key2) := fun h2 => h h2.symm
    simp [validateToken, generateToken, jwtVerify, hk, hne]

/-- Closed instance of C2: a token signed under k1 is rejected under k2
with the signature reason. -/
theorem C2_verify_wrong_key_witness :
    validateToken
      (generateToken { id := some "u1", email := some "a@b.com" } "k1" {} 1000)
      "k2" {} 1000
      = { valid := false, error := some "Invalid token signature" } :=
  C2_verify_wrong_key { id := some "u1", email := some "a@b.com" } "k1" "k2"
    {} 1000 1000 (by decide)

/-! ## Claim C3 -/

/-- jwtVerifyClaims never reports expiry. -/
theorem jwtVerifyClaims_ne_expired (p : Payload) (issuer audience : String) :
    jwtVerifyClaims p issuer audience ≠ Except.error JwtError.tokenExpired := by
  unfold jwtVerifyClaims
  split_ifs <;> simp

/-- jwtVerifyClaims returns the payload it was given when it succeeds. -/
theorem jwtVerifyClaims_ok {p q : Payload} {issuer audience : String}
    (h : jwtVerifyClaims p issuer audience = Except.ok q) : q = p := by
  unfold jwtVerifyClaims at h
  split_ifs at h <;> simp_all

/-- Reduction of jwtVerify on a correctly signed token without an exp
claim. -/
theorem jwtVerify_signed_none (p : Payload) (k key issuer audience : String)
    (now : Nat) (hE : p.exp = none) (h1 : ¬ key = "") (hk : k = key) :
    jwtVerify (Token.signed p k) key issuer audience now
      = jwtVerifyClaims p issuer audience := by
  subst hk
  simp [jwtVerify, h1, hE]

/-- Reduction of jwtVerify on a correctly signed token with an exp
claim. -/
theorem jwtVerify_signed_some (p : Payload) (k key issuer audience : String)
    (now e : Nat) (hE : p.exp = some e) (h1 : ¬ key = "") (hk : k = key) :
    jwtVerify (Token.signed p k) key issuer audience now
      = if e ≤ now then Except.error JwtError.tokenExpired
        else jwtVerifyClaims p issuer audience := by
  subst hk
  simp [jwtVerify, h1, hE]

/-- A successful jwtVerify means the token is signed under the supplied
non-empty key and returns exactly its own payload. -/
theorem jwtVerify_ok {t : Token} {key issuer audience : String} {now : Nat}
    {q : Payload} (h : jwtVerify t key issuer audience now = Except.ok q) :
    t = Token.signed q key ∧ key ≠ "" := by
  cases t with
  | empty => simp [jwtVerify] at h
  | malformed => simp [jwtVerify] at h
  | unsigned p => simp [jwtVerify] at h
  | signed p k =>
    by_cases h1 : key = ""
    · simp [jwtVerify, h1] at h
    · by_cases hk : k = key
      · rcases hE : p.exp with _ | e
        · rw [jwtVerify_signed_none p k key issuer audience now hE h1 hk] at h
          rw [jwtVerifyClaims_ok h, hk]
          exact ⟨rfl, h1⟩
        · rw [jwtVerify_signed_some p k key issuer audience now e hE h1 hk] at h
          by_cases hle : e ≤ now
          · rw [if_pos hle] at h
            simp at h
          · rw [if_neg hle] at h
            rw [jwtVerifyClaims_ok h, hk]
            exact ⟨rfl, h1⟩
      · simp [jwtVerify, h1, hk] at h

/-- A TokenExpiredError from jwtVerify means the token is signed under
the supplied non-empty key and its exp claim has passed. -/
theorem jwtVerify_expired {t : Token} {key issuer audience : String}
    {now : Nat}
    (h : jwtVerify t key issuer audience now
      = Except.error JwtError.tokenExpired) :
    ∃ p e, t = Token.signed p key ∧ key ≠ "" ∧ p.exp = some e ∧ e ≤ now := by
  cases t with
  | empty => simp [jwtVerify] at h
  | malformed => simp [jwtVerify] at h
  | unsigned p => simp [jwtVerify] at h
  | signed p k =>
    by_cases h1 : key = ""
    · simp [jwtVerify, h1] at h
    · by_cases hk : k = key
      · rcases hE : p.exp with _ | e
        · rw [jwtVerify_signed_none p k key issuer audience now hE h1 hk] at h
          exact absurd h (jwtVerifyClaims_ne_expired p issuer audience)
        · rw [jwtVerify_signed_some p k key issuer audience now e hE h1 hk] at h
          by_cases hle : e ≤ now
          · exact ⟨p, e, by rw [hk], h1, hE, hle⟩
          · rw [if_neg hle] at h
            exact absurd h (jwtVerifyClaims_ne_expired p issuer audience)
      · simp [jwtVerify, h1, hk] at h

/-- jwtVerify reports expiry on a correctly signed token whose exp claim
has passed. -/
theorem jwtVerify_expired_intro (issuer audience : String) {p : Payload}
    {key : String} {now e : Nat} (h1 : key ≠ "") (hE : p.exp = some e)
    (hle : e ≤ now) :
    jwtVerify (Token.signed p key) key issuer audience now
      = Except.error JwtError.tokenExpired := by
  simp only [jwtVerify]
  rw [if_neg h1, if_neg (by simp), hE]
  simp [hle]

/-- The expired flag of validateToken is set exactly when the token is
correctly signed under the given non-empty secret and its exp claim is
present and not in the future. -/
theorem validateToken_expired_iff (t : Token) (secret : String)
    (options : JwtOptions) (now : Nat) :
    (validateToken t secret options now).expired = true ↔
      ∃ p e, t = Token.signed p secret ∧ secret ≠ "" ∧ p.exp = some e ∧
        e ≤ now := by
  constructor
  · intro h
    cases t with
    | empty => simp [validateToken] at h
    | malformed => simp [validateToken] at h
    | unsigned p => simp [validateToken, jwtVerify] at h
    | signed p k =>
      simp only [validateToken] at h
      split at h
      · rename_i hjv
        exact jwtVerify_expired hjv
      · simp at h
      · rename_i decoded hjv
        split at h
        · simp at h
        · split_ifs at h
  · rintro ⟨p, e, rfl, hs, hE, hle⟩
    simp only [validateToken]
    rw [jwtVerify_expired_intro (options.issuer.getD "latanda.online")
      (options.audience.getD "latanda-web-app") hs hE hle]

/-- When the expired flag is set, the whole validation result is the
Token expired record. -/
theorem validateToken_expired_eq (t : Token) (secret : String)
    (options : JwtOptions) (now : Nat)
    (h : (validateToken t secret options now).expired = true) :
    validateToken t secret options now
      = { valid := false, error := some "Token expired", expired := true } := by
  obtain ⟨p, e, rfl, hs, hE, hle⟩ :=
    (validateToken_expired_iff t secret options now).mp h
  simp only [validateToken]
  rw [jwtVerify_expired_intro (options.issuer.getD "latanda.online")
    (options.audience.getD "latanda-web-app") hs hE hle]

/-- When the validation succeeds, the token is a signed token and the
decoded field carries its payload. -/
theorem validateToken_valid_decoded (t : Token) (secret : String)
    (options : JwtOptions) (now : Nat)
    (h : (validateToken t secret options now).valid = true) :
    ∃ p k, t = Token.signed p k ∧
      (validateToken t secret options now).decoded = some p := by
  cases t with
  | empty => simp [validateToken] at h
  | malformed => simp [validateToken] at h
  | unsigned p => simp [validateToken, jwtVerify] at h
  | signed p k =>
    refine ⟨p, k, rfl, ?_⟩
    simp only [validateToken] at h ⊢
    split at h
    · simp at h
    · simp at h
    · rename_i decoded hjv
      have hq : p = decoded := (Token.signed.inj (jwtVerify_ok hjv).1).1
      subst hq
      split at h
      · simp at h
      · split_ifs at h ⊢ <;> simp_all

/-- Claim C3: refreshToken issues a new token exactly when the old token
validates or fails specifically with the expired flag; any other invalid
reason (bad signature, malformed token) yields the failure result and no
token.  On success the new token is signed under the same secret and
carries a fresh iat (the current clock) and exp (current clock plus time
to live), with identity fields rebuilt from the payload embedded in the
old token.  The third conjunct identifies the expired flag with genuine
expiry of a correctly signed token. -/
theorem C3_refresh_iff (t : Token) (secret : String) (options : JwtOptions)
    (now : Nat) :
    (¬ ((validateToken t secret options now).valid = true ∨
        (validateToken t secret options now).expired = true) →
      refreshToken t secret options now
        = RefreshResult.failure "Invalid token cannot be refreshed") ∧
    (((validateToken t secret options now).valid = true ∨
        (validateToken t secret options now).expired = true) →
      ∃ p k, t = Token.signed p k ∧
        refreshToken t secret options now
          = RefreshResult.success
              (Token.signed
                { user_id := jsOrStr p.user_id none
                  email := p.email
                  role := if strTruthy p.role then p.role else some "USER"
                  permissions := some (p.permissions.getD [])
                  iss := some (options.issuer.getD "latanda.online")
                  aud := some (options.audience.getD "latanda-web-app")
                  iat := some now
                  exp := some (now + options.expiresIn.getD 28800) } secret)
              p.user_id
              (if natTruthy options.expiresIn then options.expiresIn.getD 0
               else 28800)) ∧
    ((validateToken t secret options now).expired = true ↔
      ∃ p e, t = Token.signed p secret ∧ secret ≠ "" ∧ p.exp = some e ∧
        e ≤ now) := by
  refine ⟨?_, ?_, validateToken_expired_iff t secret options now⟩
  · intro h
    push_neg at h
    obtain ⟨h1, h2⟩ := h
    simp only [Bool.not_eq_true] at h1 h2
    simp [refreshToken, h1, h2]
  · rintro (h | h)
    · obtain ⟨p, k, rfl, hdec⟩ := validateToken_valid_decoded t secret options now h
      refine ⟨p, k, rfl, ?_⟩
      simp [refreshToken, h, hdec, generateToken, Option.orElse]
    · obtain ⟨p, e, rfl, hs, hexp, hle⟩ :=
        (validateToken_expired_iff t secret options now).mp h
      have heq := validateToken_expired_eq _ secret options now h
      refine ⟨p, secret, rfl, ?_⟩
      simp [refreshToken, heq, decodeToken, generateToken, Option.orElse]

/-- A concrete payload for the closed instances of claim C3: fully
populated, expiring at time 50. -/
def c3Payload : Payload :=
  { user_id := some "u1"
    email := some "a@b.com"
    role := some "MIT"
    permissions := some ["create_groups"]
    iss := some "latanda.online"
    aud := some "latanda-web-app"
    iat := some 10
    exp := some 50 }

/-- Closed instance of C3: a malformed token is refused, and an expired
but correctly signed token is reissued with fresh timestamps. -/
theorem C3_refresh_iff_witness :
    (refreshToken Token.malformed "s" {} 100
      = RefreshResult.failure "Invalid token cannot be refreshed") ∧
    (∃ p k, Token.signed c3Payload "s" = Token.signed p k ∧
      refreshToken (Token.signed c3Payload "s") "s" {} 100
        = RefreshResult.success
            (Token.signed
              { user_id := jsOrStr p.user_id none
                email := p.email
                role := if strTruthy p.role then p.role else some "USER"
                permissions := some (p.permissions.getD [])
                iss := some (JwtOptions.issuer {} |>.getD "latanda.online")
                aud := some (JwtOptions.audience {} |>.getD "latanda-web-app")
                iat := some 100
                exp := some (100 + (JwtOptions.expiresIn {} |>.getD 28800)) } "s")
            p.user_id
            (if natTruthy (JwtOptions.expiresIn {}) then
              (JwtOptions.expiresIn {} |>.getD 0) else 28800)) :=
  ⟨(C3_refresh_iff Token.malformed "s" {} 100).1 (by decide),
   (C3_refresh_iff (Token.signed c3Payload "s") "s" {} 100).2.1 (by decide)⟩

/-! ## Claims C4 and C5 -/

/-- A concrete payload for the counterexample of claim C4: fully
populated and unexpired at time 200, correctly signed below, but with an
issuer different from the expected default. -/
def c4Payload : Payload :=
  { user_id := some "u1"
    email := some "a@b.com"
    role := some "USER"
    permissions := some []
    iss := some "evil.example"
    aud := some "latanda-web-app"
    iat := some 100
    exp := some 99999 }

/-- Counterexample to claim C4 as stated: this correctly signed,
unexpired token has an issuer different from the expected default, yet
validateToken reports the signature reason Invalid token signature, not
the issuer-mismatch reason Invalid issuer.  The underlying verifier is
given the issuer and audience options (jwt.js lines 66-70), enforces
them itself, and its JsonWebTokenError is mapped by the catch block
(jwt.js lines 107-109) before the explicit step-6 comparison (lines
87-89) can run. -/
theorem C4_issuer_counterexample :
    (validateToken (Token.signed c4Payload "k1") "k1" {} 200).valid = false ∧
    (validateToken (Token.signed c4Payload "k1") "k1" {} 200).error
      ≠ some "Invalid issuer" ∧
    (validateToken (Token.signed c4Payload "k1") "k1" {} 200).error
      = some "Invalid token signature" := by
  refine ⟨by decide, by decide, by decide⟩

/-- Claim C4 amended: for every correctly signed, unexpired token
checked against non-empty expected issuer and audience values, an
issuer or audience mismatch makes validateToken fail, but with the
reason Invalid token signature (the catch-block mapping of the
JsonWebTokenError thrown by the underlying verifier), not with the
step-6 reasons Invalid issuer or Invalid audience, which are
unreachable when the expected values are non-empty. -/
theorem C4_issuer_audience_mismatch (p : Payload) (key issuer audience : String)
    (options : JwtOptions) (now e : Nat)
    (hoi : options.issuer.getD "latanda.online" = issuer)
    (hoa : options.audience.getD "latanda-web-app" = audience)
    (hkey : key ≠ "") (hiss : issuer ≠ "") (haud : audience ≠ "")
    (hexp : p.exp = some e) (hnow : now < e)
    (hmis : p.iss ≠ some issuer ∨ p.aud ≠ some audience) :
    validateToken (Token.signed p key) key options now
      = { valid := false, error := some "Invalid token signature" } := by
  have hjv : ∃ m, jwtVerify (Token.signed p key) key issuer audience now
      = Except.error (JwtError.jsonWebToken m) := by
    rw [jwtVerify_signed_some p key key issuer audience now e hexp hkey rfl,
      if_neg (by omega)]
    unfold jwtVerifyClaims
    by_cases ha : p.aud = some audience
    · have hm : p.iss ≠ some issuer := hmis.resolve_right (fun hh => hh ha)
      rw [if_neg (fun hc => hc.2 ha), if_pos ⟨hiss, hm⟩]
      exact ⟨_, rfl⟩
    · rw [if_pos ⟨haud, ha⟩]
      exact ⟨_, rfl⟩
  obtain ⟨m, hjv⟩ := hjv
  simp [validateToken, hoi, hoa, hjv]

/-- Closed instance of the amended C4 at the counterexample input. -/
theorem C4_issuer_audience_mismatch_witness :
    validateToken (Token.signed c4Payload "k1") "k1" {} 200
      = { valid := false, error := some "Invalid token signature" } :=
  C4_issuer_audience_mismatch c4Payload "k1" "latanda.online" "latanda-web-app"
    {} 200 99999 rfl rfl (by decide) (by decide) (by decide) rfl (by omega)
    (Or.inl (by decide))

/-- A concrete payload for the counterexample of claim C5: all mandatory
claims present and truthy except aud, which is absent. -/
def c5Payload : Payload :=
  { user_id := some "u1"
    email := some "a@b.com"
    role := some "USER"
    permissions := some []
    iss := some "latanda.online"
    aud := none
    iat := some 100
    exp := some 99999 }

/-- Counterexample to claim C5 as stated: this correctly signed,
unexpired token is missing its aud claim, yet validateToken reports
Invalid token signature rather than Missing required claim: aud.  The
underlying verifier enforces the audience option itself (a missing aud
fails that comparison), so the claim-presence loop (jwt.js lines 72-78)
is never reached for a missing iss or aud. -/
theorem C5_missing_aud_counterexample :
    (validateToken (Token.signed c5Payload "k1") "k1" {} 200).error
      = some "Invalid token signature" ∧
    (validateToken (Token.signed c5Payload "k1") "k1" {} 200).error
      ≠ some "Missing required claim: aud" := by
  refine ⟨by decide, by decide⟩

/-- Claim C5 amended: for a correctly signed, unexpired token whose iss
and aud claims match the non-empty expected values (so the underlying
verifier accepts it), validateToken reports Missing required claim: c
exactly when c is the first claim among user_id, email, role, iss, aud,
exp, iat (in source order) whose value is absent or JavaScript-falsy
(empty string or zero); when every one of them is present and truthy,
validation succeeds.  Under the stated hypotheses the first falsy claim
can only be user_id, email, role or iat. -/
theorem C5_missing_claims (p : Payload) (key issuer audience : String)
    (options : JwtOptions) (now e : Nat)
    (hoi : options.issuer.getD "latanda.online" = issuer)
    (hoa : options.audience.getD "latanda-web-app" = audience)
    (hkey : key ≠ "") (hiss : issuer ≠ "") (haud : audience ≠ "")
    (hpi : p.iss = some issuer) (hpa : p.aud = some audience)
    (hexp : p.exp = some e) (hnow : now < e) :
    (∀ c, firstMissingClaim p = some c →
      validateToken (Token.signed p key) key options now
        = { valid := false, error := some ("Missing required claim: " ++ c) }) ∧
    (firstMissingClaim p = none →
      (validateToken (Token.signed p key) key options now).valid = true) := by
  have hjv : jwtVerify (Token.signed p key) key issuer audience now
      = Except.ok p := by
    rw [jwtVerify_signed_some p key key issuer audience now e hexp hkey rfl,
      if_neg (by omega)]
    unfold jwtVerifyClaims
    rw [if_neg (fun hc => hc.2 hpa), if_neg (fun hc => hc.2 hpi)]
  have hlt : ¬ (p.exp.getD 0 ≤ now) := by
    rw [hexp]
    simpa using Nat.not_le.mpr hnow
  constructor
  · intro c hc
    simp [validateToken, hoi, hoa, hjv, hc]
  · intro hc
    simp [validateToken, hoi, hoa, hjv, hc, hlt, hpi, hpa]

/-- A concrete payload for the closed instance of the amended C5: the
user_id claim is absent, everything else is present and truthy. -/
def c5NoUserPayload : Payload :=
  { user_id := none
    email := some "a@b.com"
    role := some "USER"
    permissions := some []
    iss := some "latanda.online"
    aud := some "latanda-web-app"
    iat := some 100
    exp := some 99999 }

/-- A concrete payload with every mandatory claim present and truthy. -/
def c5FullPayload : Payload :=
  { user_id := some "u1"
    email := some "a@b.com"
    role := some "USER"
    permissions := some []
    iss := some "latanda.online"
    aud := some "latanda-web-app"
    iat := some 100
    exp := some 99999 }

/-- Closed instance of the amended C5: a token without user_id fails
with the corresponding missing-claim reason, and a fully populated one
validates. -/
theorem C5_missing_claims_witness :
    (validateToken (Token.signed c5NoUserPayload "k1") "k1" {} 200
      = { valid := false
          error := some ("Missing required claim: " ++ "user_id") }) ∧
    (validateToken (Token.signed c5FullPayload "k1") "k1" {} 200).valid
      = true :=
  ⟨(C5_missing_claims c5NoUserPayload "k1" "latanda.online" "latanda-web-app"
      {} 200 99999 rfl rfl (by decide) (by decide) (by decide) rfl rfl rfl
      (by omega)).1 "user_id" (by decide),
   (C5_missing_claims c5FullPayload "k1" "latanda.online" "latanda-web-app"
      {} 200 99999 rfl rfl (by decide) (by decide) (by decide) rfl rfl rfl
      (by omega)).2 (by decide)⟩

/-! ## Claims C6 and C7 -/

/-- Claim C6: for every permission string, including strings not listed in
any permission set of a role, hasPermission of ADMIN and that string is
true, and hasPermission of USER and system_config is false. -/
theorem C6_hasPermission_admin_user (perm : String) :
    hasPermission "ADMIN" perm = true ∧
    hasPermission "USER" "system_config" = false := by
  constructor
  · simp [hasPermission, ROLES]
  · decide

/-- Claim C7: canPerformGroupAction returns true exactly when the role is
ADMIN, or the requester is a MIT who created the group and the action is
among edit, delete, approve_members, manage_settings, or neither of the
previous two cases applies and the action is view.  The three cases are
tested in this order, so a MIT creator asking for view falls into the
membership test of the second case (which excludes view). -/
theorem C7_canPerformGroupAction_iff (userId : String) (group : Group)
    (userRole action : String) :
    canPerformGroupAction userId group userRole action = true ↔
      (userRole = "ADMIN" ∨
       (userRole = "MIT" ∧ group.creator_id = userId ∧
         mitActions.contains action = true) ∨
       (userRole ≠ "ADMIN" ∧ ¬(userRole = "MIT" ∧ group.creator_id = userId) ∧
         action = "view")) := by
  unfold canPerformGroupAction
  split_ifs with h1 h2 h3 <;> simp_all

/-- Closed instance of C7: a MIT creator may edit their own group, and an
outside USER may view it. -/
theorem C7_canPerformGroupAction_iff_witness :
    canPerformGroupAction "u1" { creator_id := "u1" } "MIT" "edit" = true ∧
    canPerformGroupAction "u9" { creator_id := "u1" } "USER" "view" = true :=
  ⟨(C7_canPerformGroupAction_iff "u1" { creator_id := "u1" } "MIT" "edit").mpr
      (by decide),
   (C7_canPerformGroupAction_iff "u9" { creator_id := "u1" } "USER" "view").mpr
      (by decide)⟩

/-! ## Request gatekeepers (src/src/middleware.js)

The middleware functions are request-scoped: each one reads the request,
and either calls next (possibly after attaching fields to the request),
sends a default rejection response through res.status(...).json(...), or
hands control to a caller-supplied handler.  The observable outcome of
one invocation is modelled by MwOutcome; invoking the custom handler is
recorded as the handled outcome carrying the value the handler returns,
since the handler fully controls the response from that point. -/

/-- The authorization header of an inbound request: absent (a falsy
header value), present but not starting with the Bearer prefix, or a
Bearer header carrying a token. -/
inductive AuthHeader where
  | absent
  | notBearer
  | bearer (t : Token)
deriving DecidableEq, Repr

/-- The user object the auth stage attaches to the request
(middleware.js lines 69-74). -/
structure AuthUser where
  id : Option String := none
  email : Option String := none
  role : Option String := none
  permissions : Option (List String) := none
deriving DecidableEq, Repr

/-- An Express request, reduced to the fields the middleware reads and
writes. -/
structure Request where
  authHeader : AuthHeader := AuthHeader.absent
  user : Option AuthUser := none
  token : Option Token := none
deriving DecidableEq, Repr

/-- The structured error record passed to a custom unauthorized handler
(middleware.js lines 35 and 54). -/
structure ErrRecord where
  message : String
  code : String
deriving DecidableEq, Repr

/-- The JSON body of a default rejection response.  Fields a branch does
not set are none.  The source reuses the JSON key required both for the
permission list (requirePermission) and for the minimum role name
(requireRole); they are modelled as the two fields required_perms and
required_role. -/
structure RespBody where
  success : Bool := false
  error : String := ""
  code : String := ""
  expired : Option Bool := none
  required_perms : Option (List String) := none
  userRole : Option String := none
  required_role : Option String := none
  current : Option String := none
deriving DecidableEq, Repr

/-- The observable outcome of one middleware invocation: next with the
(possibly updated) request, the default rejection response with its
status and body, or the value returned by a custom handler. -/
inductive MwOutcome (R : Type) where
  | next (req : Request)
  | defaultResp (status : Nat) (body : RespBody)
  | handled (r : R)
deriving DecidableEq

/-- The configuration of createAuthMiddleware (middleware.js lines
18-24).  R is the response type produced by the custom handler. -/
structure AuthConfig (R : Type) where
  jwtSecret : Option String := none
  issuer : Option String := none
  audience : Option String := none
  onUnauthorized : Option (Request → ErrRecord → R) := none

/-- The rejection taken when the authorization header is missing or not
a Bearer header (middleware.js lines 34-46). -/
def authNoToken {R : Type} (config : AuthConfig R) (req : Request) :
    MwOutcome R :=
  match config.onUnauthorized with
  | some handler => MwOutcome.handled (handler req
      { message := "Missing or invalid Authorization header", code := "NO_TOKEN" })
  | none => MwOutcome.defaultResp 401
      { error := "Authentication required", code := "NO_TOKEN" }

/-- The request-time behaviour of the middleware returned by
createAuthMiddleware (middleware.js lines 30-78): header check, token
validation with the configured issuer and audience, then either the
rejection path (custom handler first) or next with req.user and
req.token attached. -/
def authMiddleware {R : Type} (config : AuthConfig R) (req : Request)
    (now : Nat) : MwOutcome R :=
  match req.authHeader with
  | AuthHeader.absent => authNoToken config req
  | AuthHeader.notBearer => authNoToken config req
  | AuthHeader.bearer t =>
    let validation := validateToken t (config.jwtSecret.getD "")
      { issuer := config.issuer, audience := config.audience } now
    if validation.valid then
      MwOutcome.next
        { req with
            user := some
              { id := validation.user_id
                email := validation.email
                role := validation.role
                permissions := validation.permissions }
            token := some t }
    else
      match config.onUnauthorized with
      | some handler => MwOutcome.handled (handler req
          { message := validation.error.getD "", code := "INVALID_TOKEN" })
      | none => MwOutcome.defaultResp 401
          { error := validation.error.getD ""
            code := "INVALID_TOKEN"
            expired := some validation.expired }

/-- createAuthMiddleware (middleware.js lines 18-79): throws when the
configured jwtSecret is falsy, otherwise returns the request
middleware. -/
def createAuthMiddleware {R : Type} (config : AuthConfig R) :
    Except String (Request → Nat → MwOutcome R) :=
  if ¬ strTruthy config.jwtSecret then
    Except.error "@latanda/auth-middleware: jwtSecret is required"
  else Except.ok (authMiddleware config)

/-- The request-time behaviour of requirePermission (middleware.js lines
93-120): NO_AUTH without a prior authenticated user, then the ANY or
ALL permission check against the role table, rejecting with FORBIDDEN.
The source first wraps a single permission string into an array; the
model takes the permission list directly. -/
def permissionMiddleware {R : Type} (permissions : List String)
    (requireAll : Bool) (req : Request) : MwOutcome R :=
  match req.user with
  | none => MwOutcome.defaultResp 401
      { error := "Authentication required before permission check"
        code := "NO_AUTH" }
  | some user =>
    let userRole := user.role.getD ""
    let hasAccess := if requireAll
      then permissions.all (fun perm => hasPermission userRole perm)
      else permissions.any (fun perm => hasPermission userRole perm)
    if hasAccess then MwOutcome.next req
    else MwOutcome.defaultResp 403
      { error := "Insufficient permissions"
        code := "FORBIDDEN"
        required_perms := some permissions
        userRole := user.role }

/-- The request-time behaviour of the middleware returned by requireRole
(middleware.js lines 134-156): NO_AUTH without a prior user, then the
role level comparison, rejecting with INSUFFICIENT_ROLE. -/
def roleMiddleware {R : Type} (minimumRole : String) (req : Request) :
    MwOutcome R :=
  match req.user with
  | none => MwOutcome.defaultResp 401
      { error := "Authentication required before role check"
        code := "NO_AUTH" }
  | some user =>
    if ¬ hasRoleLevel (user.role.getD "") minimumRole then
      MwOutcome.defaultResp 403
        { error := "Requires " ++ minimumRole ++ " role or higher"
          code := "INSUFFICIENT_ROLE"
          required_role := some minimumRole
          current := user.role }
    else MwOutcome.next req

/-- requireRole (middleware.js lines 129-157): validates the role name
at construction time, throwing on an invalid name, and only then
returns the request middleware. -/
def requireRole {R : Type} (minimumRole : String) :
    Except String (Request → MwOutcome R) :=
  if ¬ isValidRole minimumRole then
    Except.error ("Invalid role: " ++ minimumRole ++ ". Must be ADMIN, MIT, IT, or USER")
  else Except.ok (roleMiddleware minimumRole)

/-- The owner accessor given to requireOwnership: either a function of
the request, which may throw, or a plain value used directly
(middleware.js lines 183-185). -/
inductive OwnerAccessor where
  | fn (f : Request → Except String (Option String))
  | value (v : Option String)

/-- The resourceOwnerId computation of requireOwnership (middleware.js
lines 183-185): call the accessor when it is a function, use the plain
value otherwise. -/
def resolveOwner (getResourceOwnerId : OwnerAccessor) (req : Request) :
    Except String (Option String) :=
  match getResourceOwnerId with
  | OwnerAccessor.fn f => f req
  | OwnerAccessor.value v => Except.ok v

/-- The request-time behaviour of requireOwnership (middleware.js lines
167-203): NO_AUTH without a prior user, ADMIN bypass, then the awaited
accessor result compared with the authenticated user id, rejecting with
NOT_OWNER on mismatch and OWNERSHIP_CHECK_FAILED when the accessor
throws. -/
def ownershipMiddleware {R : Type} (getResourceOwnerId : OwnerAccessor)
    (req : Request) : MwOutcome R :=
  match req.user with
  | none => MwOutcome.defaultResp 401
      { error := "Authentication required", code := "NO_AUTH" }
  | some user =>
    if user.role = some "ADMIN" then MwOutcome.next req
    else
      match resolveOwner getResourceOwnerId req with
      | Except.error _ => MwOutcome.defaultResp 500
          { error := "Failed to verify resource ownership"
            code := "OWNERSHIP_CHECK_FAILED" }
      | Except.ok resourceOwnerId =>
        if user.id ≠ resourceOwnerId then
          MwOutcome.defaultResp 403
            { error := "You can only access your own resources"
              code := "NOT_OWNER" }
        else MwOutcome.next req

/-! ## Claims C8, C9 and C10 -/

/-- A request that already carries an authenticated USER identity. -/
def userReq : Request :=
  { authHeader := AuthHeader.absent
    user := some
      { id := some "u1"
        email := some "a@b.com"
        role := some "USER"
        permissions := some [] } }

/-- The permission gate never invokes a custom handler: its rejection is
always the default response. -/
theorem permissionMiddleware_ne_handled {R : Type} (permissions : List String)
    (requireAll : Bool) (req : Request) (r : R) :
    permissionMiddleware permissions requireAll req ≠ MwOutcome.handled r := by
  obtain ⟨hdr, u, tok⟩ := req
  cases u with
  | none => simp [permissionMiddleware]
  | some user =>
    simp only [permissionMiddleware]
    split_ifs <;> simp

/-- The role gate never invokes a custom handler. -/
theorem roleMiddleware_ne_handled {R : Type} (minimumRole : String)
    (req : Request) (r : R) :
    roleMiddleware minimumRole req ≠ MwOutcome.handled r := by
  obtain ⟨hdr, u, tok⟩ := req
  cases u with
  | none => simp [roleMiddleware]
  | some user =>
    simp only [roleMiddleware]
    split_ifs <;> simp

/-- The ownership gate never invokes a custom handler. -/
theorem ownershipMiddleware_ne_handled {R : Type} (acc : OwnerAccessor)
    (req : Request) (r : R) :
    ownershipMiddleware acc req ≠ MwOutcome.handled r := by
  obtain ⟨hdr, u, tok⟩ := req
  cases u with
  | none => simp [ownershipMiddleware]
  | some user =>
    simp only [ownershipMiddleware]
    by_cases hadmin : user.role = some "ADMIN"
    · simp [hadmin]
    · rw [if_neg hadmin]
      intro hEq
      split at hEq
      · injection hEq
      · split_ifs at hEq <;> injection hEq

/-- Counterexample to claim C8 as stated: the role gate offers no custom
failure handler.  requireRole takes only the minimum role name
(middleware.js line 129), so when the gate rejects this concrete
authenticated USER request, the outcome is the fixed default 403
response; no handler ever receives the request and the error record. -/
theorem C8_role_gate_counterexample :
    roleMiddleware "ADMIN" userReq
      = (MwOutcome.defaultResp 403
          { error := "Requires " ++ "ADMIN" ++ " role or higher"
            code := "INSUFFICIENT_ROLE"
            required_role := some "ADMIN"
            current := some "USER" } : MwOutcome Nat) := by
  decide

/-- Claim C8 amended: only the required-auth stage accepts a custom
failure handler (onUnauthorized).  When that stage rejects and a handler
is configured, the outcome is exactly the handler applied to the
original request and the structured error record with message and code,
and the handler controls the response.  The permission, role and
ownership gates never produce a handler outcome: their failure path is
always the default response. -/
theorem C8_custom_handler_auth_only {R : Type}
    (handler : Request → ErrRecord → R) (config : AuthConfig R)
    (req : Request) (now : Nat) (permissions : List String)
    (requireAll : Bool) (minimumRole : String) (acc : OwnerAccessor) (r : R)
    (hconf : config.onUnauthorized = some handler) :
    (req.authHeader = AuthHeader.absent →
      authMiddleware config req now
        = MwOutcome.handled (handler req
            { message := "Missing or invalid Authorization header"
              code := "NO_TOKEN" })) ∧
    (∀ t, req.authHeader = AuthHeader.bearer t →
      (validateToken t (config.jwtSecret.getD "")
          { issuer := config.issuer, audience := config.audience } now).valid
        = false →
      authMiddleware config req now
        = MwOutcome.handled (handler req
            { message := (validateToken t (config.jwtSecret.getD "")
                { issuer := config.issuer
                  audience := config.audience } now).error.getD ""
              code := "INVALID_TOKEN" })) ∧
    permissionMiddleware permissions requireAll req ≠ MwOutcome.handled r ∧
    roleMiddleware minimumRole req ≠ MwOutcome.handled r ∧
    ownershipMiddleware acc req ≠ MwOutcome.handled r := by
  refine ⟨?_, ?_, permissionMiddleware_ne_handled permissions requireAll req r,
    roleMiddleware_ne_handled minimumRole req r,
    ownershipMiddleware_ne_handled acc req r⟩
  · intro h
    simp [authMiddleware, authNoToken, h, hconf]
  · intro t ht hv
    simp [authMiddleware, ht, hconf, hv]

/-- Closed instance of the amended C8: a configured handler receives a
request without an authorization header, and the role gate rejection of
a concrete request is the default response. -/
theorem C8_custom_handler_auth_only_witness :
    (authMiddleware
        { jwtSecret := some "k1"
          onUnauthorized := some (fun _ e => e.code) }
        { authHeader := AuthHeader.absent } 5
      = MwOutcome.handled "NO_TOKEN") ∧
    roleMiddleware "MIT" userReq ≠ (MwOutcome.handled "x" : MwOutcome String) :=
  ⟨(C8_custom_handler_auth_only (fun _ e => e.code)
      { jwtSecret := some "k1", onUnauthorized := some (fun _ e => e.code) }
      { authHeader := AuthHeader.absent } 5 [] false "MIT"
      (OwnerAccessor.value none) "x" rfl).1 rfl,
   (C8_custom_handler_auth_only (fun _ e => e.code)
      { jwtSecret := some "k1", onUnauthorized := some (fun _ e => e.code) }
      userReq 5 [] false "MIT" (OwnerAccessor.value none) "x" rfl).2.2.2.1⟩

/-- Claim C9: requireRole validates the configured role name at
construction time: construction returns a middleware function exactly
for the four role-table names, and for any other name it throws the
configuration error immediately, before any request is processed. -/
theorem C9_requireRole_construction (name : String) :
    (requireRole name : Except String (Request → MwOutcome Nat)).isOk
        = isValidRole name ∧
    (isValidRole name = false →
      (requireRole name : Except String (Request → MwOutcome Nat))
        = Except.error
            ("Invalid role: " ++ name ++ ". Must be ADMIN, MIT, IT, or USER")) := by
  constructor
  · by_cases h : isValidRole name = true
    · simp [requireRole, h, Except.isOk, Except.toBool]
    · simp only [Bool.not_eq_true] at h
      simp [requireRole, h, Except.isOk, Except.toBool]
  · intro h
    simp [requireRole, h]

/-- Closed instance of C9: an unknown role name is rejected at
construction with the configuration error, a valid one constructs. -/
theorem C9_requireRole_construction_witness :
    ((requireRole "SUPERADMIN" : Except String (Request → MwOutcome Nat)).isOk
        = false) ∧
    ((requireRole "SUPERADMIN" : Except String (Request → MwOutcome Nat))
        = Except.error
            ("Invalid role: " ++ "SUPERADMIN" ++ ". Must be ADMIN, MIT, IT, or USER")) ∧
    ((requireRole "MIT" : Except String (Request → MwOutcome Nat)).isOk
        = true) :=
  ⟨by rw [(C9_requireRole_construction "SUPERADMIN").1]; decide,
   (C9_requireRole_construction "SUPERADMIN").2 (by decide),
   by rw [(C9_requireRole_construction "MIT").1]; decide⟩

/-- The HTTP status the middleware module pairs with each rejection
code. -/
def codeStatus : String → Nat
  | "NO_TOKEN" => 401
  | "INVALID_TOKEN" => 401
  | "NO_AUTH" => 401
  | "FORBIDDEN" => 403
  | "INSUFFICIENT_ROLE" => 403
  | "NOT_OWNER" => 403
  | "OWNERSHIP_CHECK_FAILED" => 500
  | _ => 0

/-- Claim C10: whenever a gate stage answers with the default rejection
response, its HTTP status is determined by the rejection code: 401 for
NO_TOKEN, INVALID_TOKEN and NO_AUTH, 403 for FORBIDDEN,
INSUFFICIENT_ROLE and NOT_OWNER, and 500 for OWNERSHIP_CHECK_FAILED,
across the auth, permission, role and ownership stages. -/
theorem C10_default_statuses {R : Type} (config : AuthConfig R)
    (req : Request) (now : Nat) (permissions : List String)
    (requireAll : Bool) (minimumRole : String) (acc : OwnerAccessor)
    (status : Nat) (body : RespBody) :
    (authMiddleware config req now = MwOutcome.defaultResp status body →
      status = codeStatus body.code) ∧
    (permissionMiddleware permissions requireAll req
        = (MwOutcome.defaultResp status body : MwOutcome R) →
      status = codeStatus body.code) ∧
    (roleMiddleware minimumRole req
        = (MwOutcome.defaultResp status body : MwOutcome R) →
      status = codeStatus body.code) ∧
    (ownershipMiddleware acc req
        = (MwOutcome.defaultResp status body : MwOutcome R) →
      status = codeStatus body.code) := by
  obtain ⟨hdr, u, tok⟩ := req
  refine ⟨?_, ?_, ?_, ?_⟩
  · intro h
    cases hdr with
    | absent =>
      simp only [authMiddleware, authNoToken] at h
      split at h <;> injection h <;> subst_vars <;> simp [codeStatus]
    | notBearer =>
      simp only [authMiddleware, authNoToken] at h
      split at h <;> injection h <;> subst_vars <;> simp [codeStatus]
    | bearer t =>
      simp only [authMiddleware] at h
      split_ifs at h <;>
        first
          | injection h
          | (split at h <;> injection h <;> subst_vars <;> simp [codeStatus])
  · intro h
    cases u with
    | none =>
      simp only [permissionMiddleware] at h
      injection h <;> subst_vars <;> simp [codeStatus]
    | some user =>
      simp only [permissionMiddleware] at h
      split_ifs at h <;> injection h <;> subst_vars <;> simp [codeStatus]
  · intro h
    cases u with
    | none =>
      simp only [roleMiddleware] at h
      injection h <;> subst_vars <;> simp [codeStatus]
    | some user =>
      simp only [roleMiddleware] at h
      split_ifs at h <;> injection h <;> subst_vars <;> simp [codeStatus]
  · intro h
    cases u with
    | none =>
      simp only [ownershipMiddleware] at h
      injection h <;> subst_vars <;> simp [codeStatus]
    | some user =>
      simp only [ownershipMiddleware] at h
      by_cases hadmin : user.role = some "ADMIN"
      · rw [if_pos hadmin] at h
        injection h
      · rw [if_neg hadmin] at h
        split at h <;>
          first
            | (injection h <;> subst_vars <;> simp [codeStatus])
            | (split_ifs at h <;> injection h <;> subst_vars <;>
                simp [codeStatus])

/-- Closed instance of C10: the default NO_TOKEN response of the auth
stage carries status 401, matching the code table. -/
theorem C10_default_statuses_witness :
    (401 : Nat) = codeStatus
      (RespBody.code { error := "Authentication required", code := "NO_TOKEN" }) :=
  (C10_default_statuses ({} : AuthConfig Nat)
    { authHeader := AuthHeader.absent } 0 [] false "ADMIN"
    (OwnerAccessor.value none) 401
    { error := "Authentication required", code := "NO_TOKEN" }).1 rfl

end LatandaAuth
